import Mathlib

/-!
Shallow embedding of the collaborative-editing OT core of
`backend/app/collab/ot.py`: the `Operation` data model, the pairwise
`transform`, the text applier `apply_operation`, rebasing via
`transform_against_history`, and the per-document `DocumentState` machine.

Document text is modelled as `List Char` (the spec's "ordered sequence of
characters"); positions and lengths are natural numbers, matching the data
model's invariant `position >= 0` and non-negative lengths.  Python's
`max(a, b - c)` on possibly-negative `b - c` with `a >= 0` coincides with
Nat truncated subtraction, and every other subtraction in the source is
guarded to be non-negative, so the Nat embedding is exact on the data
model's domain.  Python string slicing `text[:p] + text[q:]` is total and
corresponds to `take p ++ drop q` for the clamped indices the source uses.
-/

inductive OperationType where
  | INSERT
  | DELETE
  | RETAIN
  | REPLACE
deriving DecidableEq, Repr

open OperationType

/-- The `Operation` dataclass of `ot.py` (lines 16-27). -/
structure Operation where
  id : String
  type : OperationType
  position : Nat
  content : List Char
  length : Nat
  user_id : String
  username : String
  timestamp : String
  version : Nat
deriving DecidableEq, Repr

namespace OperationalTransform

/-- `OperationalTransform.transform` (ot.py lines 61-329), translated
branch by branch: each Python `Operation(...)` constructor call that copies
all fields but some becomes a structure-update of the corresponding input. -/
def transform (op1 op2 : Operation) : Operation × Operation :=
  match op1.type, op2.type with
  | RETAIN, RETAIN => (op1, op2)
  | INSERT, RETAIN =>
      if op1.position ≤ op2.position then
        (op1, { op2 with position := op2.position + op1.content.length })
      else
        (op1, op2)
  | RETAIN, INSERT =>
      if op2.position ≤ op1.position then
        ({ op1 with position := op1.position + op2.content.length }, op2)
      else
        (op1, op2)
  | DELETE, RETAIN =>
      if op1.position < op2.position then
        (op1, { op2 with position := max op1.position (op2.position - op1.length) })
      else
        (op1, op2)
  | RETAIN, DELETE =>
      if op2.position < op1.position then
        ({ op1 with position := max op2.position (op1.position - op2.length) }, op2)
      else
        (op1, op2)
  | INSERT, INSERT =>
      if op1.position ≤ op2.position then
        (op1, { op2 with position := op2.position + op1.content.length })
      else
        ({ op1 with position := op1.position + op2.content.length }, op2)
  | DELETE, DELETE =>
      if op1.position ≤ op2.position then
        if op1.position + op1.length ≤ op2.position then
          (op1, { op2 with position := op2.position - op1.length })
        else
          let new_length :=
            max (op1.position + op1.length) (op2.position + op2.length) - op1.position
          ({ op1 with content := [], length := new_length },
           { op2 with type := RETAIN, position := 0, content := [], length := 0 })
      else
        if op2.position + op2.length ≤ op1.position then
          ({ op1 with position := op1.position - op2.length }, op2)
        else
          let new_length :=
            max (op1.position + op1.length) (op2.position + op2.length) - op2.position
          ({ op1 with type := RETAIN, position := 0, content := [], length := 0 },
           { op2 with content := [], length := new_length })
  | INSERT, DELETE =>
      if op1.position ≤ op2.position then
        (op1, { op2 with position := op2.position + op1.content.length })
      else if op2.position + op2.length ≤ op1.position then
        ({ op1 with position := op1.position - op2.length }, op2)
      else
        ({ op1 with position := op2.position }, op2)
  | DELETE, INSERT =>
      if op2.position ≤ op1.position then
        ({ op1 with position := op1.position + op2.content.length }, op2)
      else if op1.position + op1.length ≤ op2.position then
        (op1, { op2 with position := op2.position - op1.length })
      else
        (op1, { op2 with position := op1.position })
  | _, _ => (op1, op2)

/-- `OperationalTransform.apply_operation` (ot.py lines 331-349).
Insert splices the payload at `position`; Delete removes
`[position, min (position+length) (len text))`; Replace discards the
whole text for the operation's content; Retain is the identity. -/
def apply_operation (text : List Char) (operation : Operation) : List Char :=
  match operation.type with
  | INSERT =>
      text.take operation.position ++ operation.content ++ text.drop operation.position
  | DELETE =>
      text.take operation.position
        ++ text.drop (min (operation.position + operation.length) text.length)
  | REPLACE => operation.content
  | RETAIN => text

/-- `OperationalTransform.transform_against_history` (ot.py lines 376-387):
a left fold of `transform` over the history, skipping every history entry
whose `version` is `≥` the (original) operation's `version`, and keeping
only the transformed left-hand operation. -/
def transform_against_history (operation : Operation) (history : List Operation) :
    Operation :=
  history.foldl
    (fun transformed_op hist_op =>
      if operation.version ≤ hist_op.version then transformed_op
      else (transform transformed_op hist_op).1)
    operation

end OperationalTransform

/-- The `DocumentState` class of ot.py (lines 389-434): content, version and
append-only operation log. -/
structure DocumentState where
  document_id : String
  content : List Char
  version : Nat
  title : String
  operations : List Operation
deriving DecidableEq, Repr

/-- `DocumentState.apply_operation` (ot.py lines 399-422): rebase via
`transform_against_history`, splice into the content, bump the version, set
the rebased operation's `version` to the new document version, append it to
the log.  The returned Bool is the Python return value: the `try` body
contains no raising statement (field reads, string slicing and list append
are total), so the function always returns `True`. -/
def DocumentState.apply_operation (s : DocumentState) (operation : Operation) :
    DocumentState × Bool :=
  let transformed_op :=
    OperationalTransform.transform_against_history operation s.operations
  let newContent := OperationalTransform.apply_operation s.content transformed_op
  ({ s with
      content := newContent,
      version := s.version + 1,
      operations := s.operations ++ [{ transformed_op with version := s.version + 1 }] },
   true)

/-- Reachable document states: start from the freshly-constructed state
(`__init__` with default `content=""`, `version=0`, empty log, ot.py lines
392-397) and evolve only by `apply_operation` calls (which all succeed,
returning `True`). -/
inductive DocumentState.Reachable : DocumentState → Prop where
  | init (docId title : String) :
      DocumentState.Reachable ⟨docId, [], 0, title, []⟩
  | step (s : DocumentState) (op : Operation) :
      DocumentState.Reachable s →
      DocumentState.Reachable (s.apply_operation op).1

/-- Builds a concrete operation with blank attribution fields, as
`Operation(id="", type=t, position=pos, content=c, length=len, version=v)`
would. -/
def Operation.simple (t : OperationType) (pos : Nat) (c : List Char) (len v : Nat) :
    Operation :=
  ⟨"", t, pos, c, len, "", "", "", v⟩

open OperationalTransform in
/-- C1: the convergence property fails on the code.  At the concrete input
doc = "", A = Insert(pos 0, "a", base 0), B = Insert(pos 0, "b", base 0),
applying A and then the right output of `transform(A, B)` yields "ab",
while applying B and then the second output of `transform(B, A)` (the
component the spec formula calls A-transformed) yields "ba"; applying B and
then the literal left output of `transform(B, A)` yields "bb".  Under
either reading the two sides of the claimed equation differ, because
equal-position concurrent inserts have no tie-break — each order shifts the
other insert to the right. -/
theorem convergence_fails_for_equal_position_inserts :
    apply_operation (apply_operation [] (Operation.simple INSERT 0 ['a'] 0 0))
        (transform (Operation.simple INSERT 0 ['a'] 0 0)
          (Operation.simple INSERT 0 ['b'] 0 0)).2 = ['a', 'b']
    ∧ apply_operation (apply_operation [] (Operation.simple INSERT 0 ['b'] 0 0))
        (transform (Operation.simple INSERT 0 ['b'] 0 0)
          (Operation.simple INSERT 0 ['a'] 0 0)).2 = ['b', 'a']
    ∧ apply_operation (apply_operation [] (Operation.simple INSERT 0 ['b'] 0 0))
        (transform (Operation.simple INSERT 0 ['b'] 0 0)
          (Operation.simple INSERT 0 ['a'] 0 0)).1 = ['b', 'b']
    ∧ (['a', 'b'] : List Char) ≠ ['b', 'a']
    ∧ (['a', 'b'] : List Char) ≠ ['b', 'b'] := by
  decide

/-- C10: `apply_operation` on a REPLACE operation returns exactly the
operation's content, discarding the entire previous document regardless of
position or length (ot.py lines 342-344). -/
theorem replace_discards_document (text : List Char) (op : Operation)
    (h : op.type = OperationType.REPLACE) :
    OperationalTransform.apply_operation text op = op.content := by
  simp [OperationalTransform.apply_operation, h]

/-- Witness for C10 at a concrete input: replacing "xy" by "new" ignores the
position 3 and length 7 and returns "new". -/
theorem replace_discards_document_witness :
    OperationalTransform.apply_operation ['x', 'y']
      (Operation.simple OperationType.REPLACE 3 ['n', 'e', 'w'] 7 0) = ['n', 'e', 'w'] :=
  replace_discards_document ['x', 'y']
    (Operation.simple OperationType.REPLACE 3 ['n', 'e', 'w'] 7 0) rfl

/-- C7: boundary behavior of the text applier (ot.py lines 331-349): a
Delete whose range reaches past the end of the document removes exactly the
suffix from its position on (the end index is clamped to the text length;
the embedding is total, so nothing is raised), and an Insert at position
equal to the text length appends its payload. -/
theorem applier_boundary (text : List Char) (op : Operation) :
    (op.type = OperationType.DELETE → text.length ≤ op.position + op.length →
      OperationalTransform.apply_operation text op = text.take op.position)
    ∧ (op.type = OperationType.INSERT → op.position = text.length →
      OperationalTransform.apply_operation text op = text ++ op.content) := by
  constructor
  · intro ht hlen
    simp [OperationalTransform.apply_operation, ht, Nat.min_eq_right hlen,
      List.drop_length]
  · intro ht hpos
    simp [OperationalTransform.apply_operation, ht, hpos, List.take_length,
      List.drop_length]

/-- Witness for C7 at concrete inputs: deleting 5 characters from position 1
of "abc" leaves "a"; inserting "z" at position 3 of "abc" yields "abcz". -/
theorem applier_boundary_witness :
    OperationalTransform.apply_operation ['a', 'b', 'c']
      (Operation.simple OperationType.DELETE 1 [] 5 0) = ['a']
    ∧ OperationalTransform.apply_operation ['a', 'b', 'c']
      (Operation.simple OperationType.INSERT 3 ['z'] 0 0) = ['a', 'b', 'c', 'z'] :=
  ⟨(applier_boundary ['a', 'b', 'c'] (Operation.simple OperationType.DELETE 1 [] 5 0)).1
      rfl (by decide),
   (applier_boundary ['a', 'b', 'c'] (Operation.simple OperationType.INSERT 3 ['z'] 0 0)).2
      rfl rfl⟩

/-- The document of spec Scenario 4: content "abcdef", version 0, empty log. -/
def doc6 : DocumentState := ⟨"doc", ['a', 'b', 'c', 'd', 'e', 'f'], 0, "t", []⟩

/-- C6 counterexample: submitting Delete(pos 10, length 5) against the
6-character document is not rejected and does not leave the version
unchanged — `DocumentState.apply_operation` performs no bounds validation. -/
theorem scenario4_not_rejected :
    ¬(((doc6.apply_operation (Operation.simple OperationType.DELETE 10 [] 5 0)).2 = false)
      ∧ (doc6.apply_operation (Operation.simple OperationType.DELETE 10 [] 5 0)).1.version
          = 0) := by
  decide

/-- C6 amended: the out-of-bounds Delete(pos 10, length 5) against the
6-character document is accepted (`apply_operation` returns True); the
delete is silently clamped so the content is unchanged, but the version is
incremented to 1. -/
theorem scenario4_accepted_version_bumped :
    (doc6.apply_operation (Operation.simple OperationType.DELETE 10 [] 5 0)).2 = true
    ∧ (doc6.apply_operation (Operation.simple OperationType.DELETE 10 [] 5 0)).1.content
        = ['a', 'b', 'c', 'd', 'e', 'f']
    ∧ (doc6.apply_operation (Operation.simple OperationType.DELETE 10 [] 5 0)).1.version
        = 1 := by
  decide

lemma apply_operation_version_irrel (text : List Char) (op : Operation) (v : Nat) :
    OperationalTransform.apply_operation text { op with version := v }
      = OperationalTransform.apply_operation text op := by
  obtain ⟨i, t, p, c, l, u, un, ts, ov⟩ := op
  cases t <;> rfl

/-- C2: document-log invariant.  Every state reachable from the initial
empty-content version-0 state by `DocumentState.apply_operation` calls (all
of which succeed) has `version` equal to the length of the operation log,
and folding the text applier over the logged operations in order, starting
from the empty text, reproduces the current content exactly. -/
theorem document_log_invariant (s : DocumentState) (h : s.Reachable) :
    s.version = s.operations.length
    ∧ s.operations.foldl OperationalTransform.apply_operation [] = s.content := by
  induction h with
  | init docId title => exact ⟨rfl, rfl⟩
  | step s op hs ih =>
      obtain ⟨h1, h2⟩ := ih
      refine ⟨?_, ?_⟩
      · simp [DocumentState.apply_operation, h1]
      · simp only [DocumentState.apply_operation, List.foldl_append, List.foldl_cons,
          List.foldl_nil]
        rw [h2, apply_operation_version_irrel]

/-- A concrete reachable state: the initial empty document after one
submitted insert of "hi". -/
def demoState : DocumentState :=
  (DocumentState.apply_operation ⟨"d", [], 0, "t", []⟩
    (Operation.simple OperationType.INSERT 0 ['h', 'i'] 0 0)).1

/-- Witness for C2: the invariant instantiated at the concrete reachable
state `demoState`. -/
theorem document_log_invariant_witness :
    demoState.version = demoState.operations.length
    ∧ demoState.operations.foldl OperationalTransform.apply_operation []
        = demoState.content :=
  document_log_invariant demoState
    (DocumentState.Reachable.step ⟨"d", [], 0, "t", []⟩
      (Operation.simple OperationType.INSERT 0 ['h', 'i'] 0 0)
      (DocumentState.Reachable.init "d" "t"))

open OperationalTransform in
/-- Refinement reference for C3, written from the spec's words: fold the
pairwise transform over every history entry whose version is greater than
or equal to the operation's base version (the `version` field of a
submitted operation carries its base version), in log order, keeping only
the transformed left-hand operation at each step. -/
def transform_against_history_spec (operation : Operation)
    (history : List Operation) : Operation :=
  history.foldl
    (fun transformed_op hist_op =>
      if operation.version ≤ hist_op.version then (transform transformed_op hist_op).1
      else transformed_op)
    operation

open OperationalTransform in
/-- C3 evaluated at a failing input: for op = Insert(pos 5, "x", base 0)
and history = [Delete(pos 0, len 2, version 1)], the code's
`transform_against_history` skips the history entry (its version 1 is ≥
the op's version 0) and returns the operation unrebased at position 5,
while the spec's fold transforms against that entry and moves the insert to
position 3.  The code's filter keeps exactly the entries the spec says to
skip. -/
theorem rebase_filter_inverted :
    transform_against_history (Operation.simple OperationType.INSERT 5 ['x'] 0 0)
        [Operation.simple OperationType.DELETE 0 [] 2 1]
      = Operation.simple OperationType.INSERT 5 ['x'] 0 0
    ∧ (transform_against_history_spec (Operation.simple OperationType.INSERT 5 ['x'] 0 0)
        [Operation.simple OperationType.DELETE 0 [] 2 1]).position = 3 := by
  decide

/-- C4 evaluated on the code: running spec Scenario 2 — document "abcdef"
at version 0, then Delete(pos 1, len 3, base 0), then the concurrent
Delete(pos 2, len 2, base 0) — through `DocumentState.apply_operation`
yields content "ae" and version 2.  The second delete is applied
untransformed (the logged first operation has version 1 ≥ base 0, so the
history filter skips it), deleting "f" from "aef" instead of collapsing to
the already-deleted overlap; the spec's expected content is "aef". -/
theorem scenario2_code_result :
    (((doc6.apply_operation (Operation.simple OperationType.DELETE 1 [] 3 0)).1.apply_operation
        (Operation.simple OperationType.DELETE 2 [] 2 0)).1.content = ['a', 'e'])
    ∧ (((doc6.apply_operation (Operation.simple OperationType.DELETE 1 [] 3 0)).1.apply_operation
        (Operation.simple OperationType.DELETE 2 [] 2 0)).1.version = 2) := by
  decide

open OperationalTransform in
/-- C5: Delete/Delete overlap resolution.  For two Delete operations whose
deleted ranges overlap, `transform` gives the operation whose start is not
larger (the one that starts first; ties go to the left argument) a Delete
covering the union of the two ranges — length `max end1 end2 - min start1
start2`, positioned at its own start — and collapses the other to a
zero-length Retain. -/
theorem delete_delete_overlap_union (op1 op2 : Operation)
    (h1 : op1.type = OperationType.DELETE) (h2 : op2.type = OperationType.DELETE)
    (hov : max op1.position op2.position
            < min (op1.position + op1.length) (op2.position + op2.length)) :
    (op1.position ≤ op2.position →
      (transform op1 op2).1.type = OperationType.DELETE
      ∧ (transform op1 op2).1.position = op1.position
      ∧ (transform op1 op2).1.length
          = max (op1.position + op1.length) (op2.position + op2.length)
              - min op1.position op2.position
      ∧ (transform op1 op2).2.type = OperationType.RETAIN
      ∧ (transform op1 op2).2.length = 0)
    ∧ (op2.position < op1.position →
      (transform op1 op2).2.type = OperationType.DELETE
      ∧ (transform op1 op2).2.position = op2.position
      ∧ (transform op1 op2).2.length
          = max (op1.position + op1.length) (op2.position + op2.length)
              - min op1.position op2.position
      ∧ (transform op1 op2).1.type = OperationType.RETAIN
      ∧ (transform op1 op2).1.length = 0) := by
  have hov1 : op2.position < op1.position + op1.length := by omega
  have hov2 : op1.position < op2.position + op2.length := by omega
  constructor
  · intro hle
    have hno : ¬(op1.position + op1.length ≤ op2.position) := by omega
    simp only [transform, h1, h2, if_pos hle, if_neg hno]
    refine ⟨?_, ?_, ?_, ?_, ?_⟩ <;> first | trivial | omega
  · intro hlt
    have hnle : ¬(op1.position ≤ op2.position) := by omega
    have hno : ¬(op2.position + op2.length ≤ op1.position) := by omega
    simp only [transform, h1, h2, if_neg hnle, if_neg hno]
    refine ⟨?_, ?_, ?_, ?_, ?_⟩ <;> first | trivial | omega

open OperationalTransform in
/-- Witness for C5 at the concrete overlapping pair Delete(pos 1, len 3)
and Delete(pos 2, len 2): the first keeps a Delete of the union [1, 4) at
position 1 with length 3, the second collapses to a zero-length Retain. -/
theorem delete_delete_overlap_union_witness :
    (transform (Operation.simple OperationType.DELETE 1 [] 3 0)
        (Operation.simple OperationType.DELETE 2 [] 2 0)).1.type = OperationType.DELETE
    ∧ (transform (Operation.simple OperationType.DELETE 1 [] 3 0)
        (Operation.simple OperationType.DELETE 2 [] 2 0)).1.position = 1
    ∧ (transform (Operation.simple OperationType.DELETE 1 [] 3 0)
        (Operation.simple OperationType.DELETE 2 [] 2 0)).1.length = 3
    ∧ (transform (Operation.simple OperationType.DELETE 1 [] 3 0)
        (Operation.simple OperationType.DELETE 2 [] 2 0)).2.type = OperationType.RETAIN
    ∧ (transform (Operation.simple OperationType.DELETE 1 [] 3 0)
        (Operation.simple OperationType.DELETE 2 [] 2 0)).2.length = 0 :=
  (delete_delete_overlap_union (Operation.simple OperationType.DELETE 1 [] 3 0)
      (Operation.simple OperationType.DELETE 2 [] 2 0) rfl rfl (by decide)).1
    (by decide)

lemma transform_against_history_all_newer (op : Operation) (hist : List Operation)
    (hall : ∀ e ∈ hist, op.version ≤ e.version) :
    OperationalTransform.transform_against_history op hist = op := by
  induction hist with
  | nil => rfl
  | cons a t ih =>
      have ha : op.version ≤ a.version := hall a (List.mem_cons_self a t)
      have ht : ∀ e ∈ t, op.version ≤ e.version :=
        fun e he => hall e (List.mem_cons_of_mem a he)
      unfold OperationalTransform.transform_against_history
      simp only [List.foldl_cons]
      rw [if_pos ha]
      exact ih ht

/-- C8 counterexample: rebasing twice is not the same as rebasing once.
For op = Insert(pos 5, "x", version 1) and history = [Delete(pos 0, len 2,
version 0)], one rebase moves the insert to position 3, a second rebase
against the same history shifts it again to position 1. -/
theorem rebase_not_idempotent :
    OperationalTransform.transform_against_history
        (OperationalTransform.transform_against_history
          (Operation.simple OperationType.INSERT 5 ['x'] 0 1)
          [Operation.simple OperationType.DELETE 0 [] 2 0])
        [Operation.simple OperationType.DELETE 0 [] 2 0]
      ≠ OperationalTransform.transform_against_history
          (Operation.simple OperationType.INSERT 5 ['x'] 0 1)
          [Operation.simple OperationType.DELETE 0 [] 2 0] := by
  decide

/-- C8 amended: `transform_against_history` is a pure function of its
arguments, and rebasing twice with the same history equals rebasing once
whenever no history entry has a version below the operation's version (then
the fold skips every entry and returns the operation itself both times). -/
theorem rebase_idempotent_when_history_not_older (op : Operation)
    (hist : List Operation) (hall : ∀ e ∈ hist, op.version ≤ e.version) :
    OperationalTransform.transform_against_history
        (OperationalTransform.transform_against_history op hist) hist
      = OperationalTransform.transform_against_history op hist := by
  rw [transform_against_history_all_newer op hist hall]
  exact transform_against_history_all_newer op hist hall

/-- Witness for the amended C8 at a concrete input: op with version 0 and a
single history entry with version 0. -/
theorem rebase_idempotent_when_history_not_older_witness :
    OperationalTransform.transform_against_history
        (OperationalTransform.transform_against_history
          (Operation.simple OperationType.INSERT 5 ['x'] 0 0)
          [Operation.simple OperationType.DELETE 0 [] 2 0])
        [Operation.simple OperationType.DELETE 0 [] 2 0]
      = OperationalTransform.transform_against_history
          (Operation.simple OperationType.INSERT 5 ['x'] 0 0)
          [Operation.simple OperationType.DELETE 0 [] 2 0] :=
  rebase_idempotent_when_history_not_older
    (Operation.simple OperationType.INSERT 5 ['x'] 0 0)
    [Operation.simple OperationType.DELETE 0 [] 2 0] (by decide)

/-- Whether the Python `transform` returns its first argument object itself
(rather than a freshly constructed `Operation`) as the first component:
read off branch by branch from ot.py lines 61-329 — `True` exactly for the
branches whose `return` statement passes `op1` through unconstructed. -/
def transform_fst_is_arg (op1 op2 : Operation) : Bool :=
  match op1.type, op2.type with
  | OperationType.RETAIN, OperationType.RETAIN => true
  | OperationType.INSERT, OperationType.RETAIN => true
  | OperationType.RETAIN, OperationType.INSERT =>
      if op2.position ≤ op1.position then false else true
  | OperationType.DELETE, OperationType.RETAIN => true
  | OperationType.RETAIN, OperationType.DELETE =>
      if op2.position < op1.position then false else true
  | OperationType.INSERT, OperationType.INSERT =>
      if op1.position ≤ op2.position then true else false
  | OperationType.DELETE, OperationType.DELETE =>
      if op1.position ≤ op2.position then
        if op1.position + op1.length ≤ op2.position then true else false
      else false
  | OperationType.INSERT, OperationType.DELETE =>
      if op1.position ≤ op2.position then true else false
  | OperationType.DELETE, OperationType.INSERT =>
      if op2.position ≤ op1.position then false else true
  | _, _ => true

/-- Whether `transform_against_history` returns the very operation object
that was passed in: true iff every non-skipped fold step passed its left
argument through, so the Python local `transformed_op` still aliases the
caller's `operation` at the end of the loop. -/
def tah_returns_arg (operation : Operation) (history : List Operation) : Bool :=
  (history.foldl
    (fun acc hist_op =>
      if operation.version ≤ hist_op.version then acc
      else ((OperationalTransform.transform acc.1 hist_op).1,
            acc.2 && transform_fst_is_arg acc.1 hist_op))
    (operation, true)).2

/-- The caller's operation object as it stands after
`DocumentState.apply_operation` returns: the Python line
`transformed_op.version = self.version` (ot.py line 414) mutates the very
object the caller passed in exactly when the rebase pipeline returned that
object unconstructed, setting its `version` to the new document version. -/
def DocumentState.caller_op_after_apply (s : DocumentState) (operation : Operation) :
    Operation :=
  if tah_returns_arg operation s.operations then
    { operation with version := s.version + 1 }
  else
    operation

/-- C9 counterexample: with an empty history, `DocumentState.apply_operation`
mutates the operation object passed to it — the rebase returns the caller's
own object, and its `version` field is then set to the new document
version 1, so the caller's operation is no longer the value it constructed. -/
theorem operation_mutated_by_apply :
    DocumentState.caller_op_after_apply ⟨"d", [], 0, "t", []⟩
        (Operation.simple OperationType.INSERT 0 ['a'] 0 0)
      ≠ Operation.simple OperationType.INSERT 0 ['a'] 0 0 := by
  decide

/-- C9 amended: `transform` and `transform_against_history` never mutate
operation values, and `DocumentState.apply_operation` leaves every field of
the operation passed to it unchanged except possibly `version`, which is
either untouched or set to the new document version (the latter exactly
when the rebase pipeline handed the caller's own object through). -/
theorem caller_op_fields_preserved (s : DocumentState) (op : Operation) :
    (s.caller_op_after_apply op).id = op.id
    ∧ (s.caller_op_after_apply op).type = op.type
    ∧ (s.caller_op_after_apply op).position = op.position
    ∧ (s.caller_op_after_apply op).content = op.content
    ∧ (s.caller_op_after_apply op).length = op.length
    ∧ (s.caller_op_after_apply op).user_id = op.user_id
    ∧ (s.caller_op_after_apply op).username = op.username
    ∧ (s.caller_op_after_apply op).timestamp = op.timestamp
    ∧ ((s.caller_op_after_apply op).version = op.version
       ∨ (s.caller_op_after_apply op).version = s.version + 1) := by
  unfold DocumentState.caller_op_after_apply
  split
  · exact ⟨rfl, rfl, rfl, rfl, rfl, rfl, rfl, rfl, Or.inr rfl⟩
  · exact ⟨rfl, rfl, rfl, rfl, rfl, rfl, rfl, rfl, Or.inl rfl⟩
